import Mathlib

/-!
Verification of the Diet Coach API meal-planning core (`apps/diet-api/main.py`).

Numeric values are modelled as exact rationals (`ℚ`); Python's `round`
(round-half-to-even) is modelled exactly on those rationals.  Fallible
operations (Python exceptions such as `ZeroDivisionError`, `HTTPException`)
are modelled with `Except String`.  The ambient `random` module is modelled
as an explicit stream of naturals threaded through the computation.
-/

set_option maxRecDepth 100000

namespace DietApp

/-- Python's round-half-to-even applied to `y`, returning an integer. -/
def pyRoundInt (y : ℚ) : ℤ :=
  let f := ⌊y⌋
  let frac := y - (f : ℚ)
  if frac < 1/2 then f
  else if 1/2 < frac then f + 1
  else if f % 2 = 0 then f else f + 1

/-- Python's `round(x, ndigits)` on exact rationals. -/
def pyRound (ndigits : ℕ) (x : ℚ) : ℚ :=
  (pyRoundInt (x * 10 ^ ndigits) : ℚ) / 10 ^ ndigits

/-- `round(x, 1)` — one-decimal rounding used throughout the API. -/
def round1 (x : ℚ) : ℚ := pyRound 1 x

/-- `round(x, 3)` — used for the adherence score. -/
def round3 (x : ℚ) : ℚ := pyRound 3 x

/-- The `per_100g` nutrient quadruple of a catalog food. -/
structure Per100g where
  calories : ℚ
  protein : ℚ
  fat : ℚ
  carbs : ℚ
deriving DecidableEq, Inhabited

/-- One entry of `FOODS_DB['foods']`: name, per-100g nutrients, dietary
tags (`food.get('tags', [])`) and optional `cost_level`. -/
structure Food where
  name : String
  per_100g : Per100g
  tags : List String
  cost_level : Option String
deriving DecidableEq, Inhabited

/-- ASCII lowercase of one character, modelling Python `str.lower` on the
ASCII alphabet the catalog and enum strings are drawn from. -/
def lowerChar (c : Char) : Char :=
  if 'A' ≤ c ∧ c ≤ 'Z' then Char.ofNat (c.toNat + 32) else c

/-- Python `s.lower()`. -/
def pyLower (s : String) : String := ⟨s.data.map lowerChar⟩

/-- `startsWithChars needle l` checks that `needle` is an initial segment of `l`. -/
def startsWithChars : List Char → List Char → Bool
  | [], _ => true
  | _ :: _, [] => false
  | a :: as, b :: bs => a == b && startsWithChars as bs

/-- `hasSubChars needle l` checks that `needle` occurs contiguously in `l`. -/
def hasSubChars (needle : List Char) : List Char → Bool
  | [] => startsWithChars needle []
  | b :: bs => startsWithChars needle (b :: bs) || hasSubChars needle bs

/-- Python `needle in haystack` substring test on strings. -/
def containsSub (haystack needle : String) : Bool :=
  hasSubChars needle.toList haystack.toList

/-- The per-food predicate of `filter_foods`: a food survives the loop
iff every applicable dietary check passes (the Python `continue`s). -/
def keeps_food (diet_tags : List String) (food : Food) : Bool :=
  let food_tags := food.tags
  let nameL := pyLower food.name
  (if diet_tags.contains "vegan" then
     food_tags.contains "vegan"
   else if diet_tags.contains "veg" && !(diet_tags.contains "non_veg") then
     food_tags.contains "veg" || food_tags.contains "vegan"
   else if diet_tags.contains "non_veg" && !(diet_tags.contains "veg") then
     food_tags.contains "non_veg"
   else true)
  && (if diet_tags.contains "lactose_free" then
        !(["milk", "cheese", "yogurt", "cottage"].any (fun d => containsSub nameL d))
      else true)
  && (if diet_tags.contains "halal" then
        !(["pork", "bacon", "ham"].any (fun k => containsSub nameL k))
        && (if ["beef", "chicken", "turkey", "lamb"].any (fun k => containsSub nameL k) then
              food_tags.contains "halal"
            else true)
      else true)
  && (if diet_tags.contains "budget" then
        food.cost_level == some "low" || food.cost_level == some "medium"
      else true)

/-- `filter_foods(diet_tags)` with the `FOODS_DB['foods']` global made an
explicit argument: no tags returns the catalog unfiltered, otherwise the
loop keeps exactly the foods passing `keeps_food`. -/
def filter_foods (diet_tags : List String) (foods : List Food) : List Food :=
  if diet_tags.isEmpty then foods
  else foods.filter (keeps_food diet_tags)

/-- C6: `filter_foods` is idempotent — filtering an already-filtered
catalog again with the same diet tags returns exactly the same list. -/
theorem filter_foods_idempotent (diet_tags : List String) (foods : List Food) :
    filter_foods diet_tags (filter_foods diet_tags foods) = filter_foods diet_tags foods := by
  unfold filter_foods
  split
  · rfl
  · simp [List.filter_filter]

/-- C7: every food kept by the vegan filter is kept by the veg filter. -/
theorem vegan_subset_veg (foods : List Food) (f : Food)
    (h : f ∈ filter_foods ["vegan"] foods) : f ∈ filter_foods ["veg"] foods := by
  unfold filter_foods at h ⊢
  simp only [List.isEmpty_cons, Bool.false_eq_true, if_false] at h ⊢
  rw [List.mem_filter] at h ⊢
  refine ⟨h.1, ?_⟩
  have hk := h.2
  simp [keeps_food] at hk
  simp [keeps_food, hk]

/-- C7 witness at a concrete catalog: a vegan-tagged tofu item. -/
theorem vegan_subset_veg_witness :
    (⟨"Tofu", ⟨76, 8, 4.8, 1.9⟩, ["veg", "vegan"], some "low"⟩ : Food) ∈
      filter_foods ["vegan"] [⟨"Tofu", ⟨76, 8, 4.8, 1.9⟩, ["veg", "vegan"], some "low"⟩] ∧
    (⟨"Tofu", ⟨76, 8, 4.8, 1.9⟩, ["veg", "vegan"], some "low"⟩ : Food) ∈
      filter_foods ["veg"] [⟨"Tofu", ⟨76, 8, 4.8, 1.9⟩, ["veg", "vegan"], some "low"⟩] :=
  ⟨by with_unfolding_all decide,
   vegan_subset_veg _ _ (by with_unfolding_all decide)⟩

/-- C10: a non-empty list of diet tags containing none of the recognized
tags leaves the catalog unchanged. -/
theorem unrecognized_tags_ignored (diet_tags : List String) (foods : List Food)
    (hne : diet_tags ≠ [])
    (h1 : "vegan" ∉ diet_tags) (h2 : "veg" ∉ diet_tags) (h3 : "non_veg" ∉ diet_tags)
    (h4 : "lactose_free" ∉ diet_tags) (h5 : "halal" ∉ diet_tags)
    (h6 : "budget" ∉ diet_tags) :
    filter_foods diet_tags foods = foods := by
  unfold filter_foods
  rw [if_neg (by simpa using hne)]
  have hk : ∀ f : Food, keeps_food diet_tags f = true := by
    intro f
    simp [keeps_food, h1, h2, h3, h4, h5, h6]
  exact List.filter_eq_self.mpr (fun f _ => hk f)

/-- C10 witness: the unrecognized tag "keto" leaves a one-item catalog intact. -/
theorem unrecognized_tags_ignored_witness :
    filter_foods ["keto"] [⟨"Oats", ⟨389, 16.9, 6.9, 66.3⟩, ["veg"], some "low"⟩] =
      [⟨"Oats", ⟨389, 16.9, 6.9, 66.3⟩, ["veg"], some "low"⟩] :=
  unrecognized_tags_ignored ["keto"] _ (by decide) (by decide) (by decide)
    (by decide) (by decide) (by decide) (by decide)

/-- The BMR request validation ranges and enums (`TDEERequest`): the primary
entry point rejects out-of-range or non-enumerated inputs. -/
structure TDEERequest where
  sex : String
  age : ℚ
  height_cm : ℚ
  weight_kg : ℚ
  activity_level : String
  goal : String
deriving DecidableEq

/-- `calculate_bmr` — Mifflin-St Jeor. -/
def calculate_bmr (sex : String) (age : ℚ) (height_cm : ℚ) (weight_kg : ℚ) : ℚ :=
  if pyLower sex = "male" then
    10 * weight_kg + 6.25 * height_cm - 5 * age + 5
  else
    10 * weight_kg + 6.25 * height_cm - 5 * age - 161

/-- `get_activity_factor` — the fixed lookup table with default 1.55. -/
def get_activity_factor (activity_level : String) : ℚ :=
  if pyLower activity_level = "sedentary" then 1.2
  else if pyLower activity_level = "light" then 1.375
  else if pyLower activity_level = "moderate" then 1.55
  else if pyLower activity_level = "active" then 1.725
  else if pyLower activity_level = "very_active" then 1.9
  else 1.55

/-- `get_calorie_adjustment` — goal adjustment with default 0. -/
def get_calorie_adjustment (goal : String) : ℚ :=
  if pyLower goal = "cut" then -0.20
  else if pyLower goal = "maintain" then 0.0
  else if pyLower goal = "bulk" then 0.15
  else 0.0

/-- The protein ratio chosen inside `calculate_macro_targets`. -/
def protein_ratio (goal : String) : ℚ :=
  if pyLower goal = "cut" then 0.35
  else if pyLower goal = "bulk" then 0.25
  else 0.30

/-- The fat ratio chosen inside `calculate_macro_targets` (0.25 in every branch). -/
def fat_ratio (_goal : String) : ℚ := 0.25

/-- `carb_ratio = 1.0 - protein_ratio - fat_ratio`. -/
def carb_ratio (goal : String) : ℚ := 1.0 - protein_ratio goal - fat_ratio goal

/-- The macro-target triple returned by `calculate_macro_targets`. -/
structure MacroTargets where
  protein_g : ℚ
  fat_g : ℚ
  carbs_g : ℚ
deriving DecidableEq

/-- `calculate_macro_targets(calories, goal)` with the 4/9/4 kcal-per-gram
conversion. -/
def calculate_macro_targets (calories : ℚ) (goal : String) : MacroTargets :=
  ⟨(calories * protein_ratio goal) / 4,
   (calories * fat_ratio goal) / 9,
   (calories * carb_ratio goal) / 4⟩

/-- The `/tdee` endpoint response, one-decimal-rounded at the boundary. -/
structure TDEEResponse where
  tdee : ℚ
  target_calories : ℚ
  protein_g : ℚ
  fat_g : ℚ
  carbs_g : ℚ
  bmr : ℚ
  activity_factor : ℚ
deriving DecidableEq

/-- The `/tdee` endpoint (`calculate_tdee`): validation of the three enums,
then BMR → TDEE → goal adjustment → macro targets, rounded at the boundary. -/
def calculate_tdee (r : TDEERequest) : Except String TDEEResponse :=
  if pyLower r.sex ∉ (["male", "female"] : List String) then
    .error "Sex must be male or female"
  else if pyLower r.activity_level ∉
      (["sedentary", "light", "moderate", "active", "very_active"] : List String) then
    .error "Invalid activity level"
  else if pyLower r.goal ∉ (["cut", "maintain", "bulk"] : List String) then
    .error "Goal must be cut, maintain, or bulk"
  else
    let bmr := calculate_bmr r.sex r.age r.height_cm r.weight_kg
    let activity_factor := get_activity_factor r.activity_level
    let tdee := bmr * activity_factor
    let calorie_adjustment := get_calorie_adjustment r.goal
    let target_calories := tdee * (1 + calorie_adjustment)
    let macro_targets := calculate_macro_targets target_calories r.goal
    .ok ⟨round1 tdee, round1 target_calories,
         round1 macro_targets.protein_g, round1 macro_targets.fat_g,
         round1 macro_targets.carbs_g, round1 bmr, activity_factor⟩

/-- `get_activity_factor` is at least 1.2 for every input string. -/
theorem activity_factor_ge (s : String) : (1.2 : ℚ) ≤ get_activity_factor s := by
  unfold get_activity_factor
  split_ifs <;> norm_num

/-- The BMR is positive for every in-range profile. -/
theorem bmr_pos (sex : String) (age height_cm weight_kg : ℚ)
    (hsex : sex = "male" ∨ sex = "female")
    (hage : 10 ≤ age ∧ age ≤ 120) (hht : 100 ≤ height_cm ∧ height_cm ≤ 250)
    (hwt : 30 ≤ weight_kg ∧ weight_kg ≤ 300) :
    0 < calculate_bmr sex age height_cm weight_kg := by
  rcases hsex with h | h <;> subst h <;> unfold calculate_bmr
  · rw [if_pos (by decide)]
    nlinarith [hage.1, hage.2, hht.1, hwt.1]
  · rw [if_neg (by decide)]
    nlinarith [hage.1, hage.2, hht.1, hwt.1]

/-- C3: concrete scenario 1 — BodyProfile(male, 30, 175 cm, 70 kg, moderate,
cut) gives bmr 1648.75, activity factor 1.55, tdee 2555.5625 (2555.6 after
the boundary rounding), target calories 2044.45, and the cut macro ratios
35 % protein / 25 % fat / 40 % carbs. -/
theorem scenario1_male_30_cut :
    calculate_bmr "male" 30 175 70 = 1648.75 ∧
    get_activity_factor "moderate" = 1.55 ∧
    calculate_bmr "male" 30 175 70 * get_activity_factor "moderate" = 2555.5625 ∧
    round1 2555.5625 = 2555.6 ∧
    2555.5625 * (1 + get_calorie_adjustment "cut") = 2044.45 ∧
    protein_ratio "cut" = 0.35 ∧ fat_ratio "cut" = 0.25 ∧ carb_ratio "cut" = 0.40 ∧
    calculate_macro_targets 2044.45 "cut" =
      ⟨2044.45 * 0.35 / 4, 2044.45 * 0.25 / 9, 2044.45 * 0.40 / 4⟩ := by
  have hm : pyLower "male" = "male" := by decide
  have hmod : pyLower "moderate" = "moderate" := by decide
  have hcut : pyLower "cut" = "cut" := by decide
  refine ⟨?_, ?_, ?_, ?_, ?_, ?_, ?_, ?_, ?_⟩
  · norm_num [calculate_bmr, hm]
  · simp [get_activity_factor, hmod]
  · simp [calculate_bmr, get_activity_factor, hm, hmod]
    norm_num
  · norm_num [round1, pyRound, pyRoundInt]
  · norm_num [get_calorie_adjustment, hcut]
  · simp [protein_ratio, hcut]
  · norm_num [fat_ratio]
  · norm_num [carb_ratio, protein_ratio, fat_ratio, hcut]
  · simp only [calculate_macro_targets, protein_ratio, fat_ratio, carb_ratio, hcut]
    norm_num

/-- C4: for every valid body profile, the goal-adjusted calorie target sits
strictly below / at / strictly above the TDEE exactly according to the goal
(cut / maintain / bulk), on the exact pre-rounding values. -/
theorem target_calories_vs_tdee (r : TDEERequest)
    (hsex : r.sex = "male" ∨ r.sex = "female")
    (hage : 10 ≤ r.age ∧ r.age ≤ 120)
    (hht : 100 ≤ r.height_cm ∧ r.height_cm ≤ 250)
    (hwt : 30 ≤ r.weight_kg ∧ r.weight_kg ≤ 300)
    (hgoal : r.goal = "cut" ∨ r.goal = "maintain" ∨ r.goal = "bulk") :
    ((calculate_bmr r.sex r.age r.height_cm r.weight_kg * get_activity_factor r.activity_level)
        * (1 + get_calorie_adjustment r.goal) <
      calculate_bmr r.sex r.age r.height_cm r.weight_kg * get_activity_factor r.activity_level ↔
        r.goal = "cut") ∧
    (calculate_bmr r.sex r.age r.height_cm r.weight_kg * get_activity_factor r.activity_level <
      (calculate_bmr r.sex r.age r.height_cm r.weight_kg * get_activity_factor r.activity_level)
        * (1 + get_calorie_adjustment r.goal) ↔
        r.goal = "bulk") ∧
    ((calculate_bmr r.sex r.age r.height_cm r.weight_kg * get_activity_factor r.activity_level)
        * (1 + get_calorie_adjustment r.goal) =
      calculate_bmr r.sex r.age r.height_cm r.weight_kg * get_activity_factor r.activity_level ↔
        r.goal = "maintain") := by
  have hb := bmr_pos r.sex r.age r.height_cm r.weight_kg hsex hage hht hwt
  have ha := activity_factor_ge r.activity_level
  set tdee := calculate_bmr r.sex r.age r.height_cm r.weight_kg *
    get_activity_factor r.activity_level with htdee
  have ht : 0 < tdee := by
    rw [htdee]; exact mul_pos hb (lt_of_lt_of_le (by norm_num) ha)
  rcases hgoal with h | h | h <;> rw [h]
  · have hadj : get_calorie_adjustment "cut" = -0.20 := by
      norm_num [get_calorie_adjustment, show pyLower "cut" = "cut" from by decide]
    rw [hadj]
    refine ⟨⟨fun _ => rfl, fun _ => by nlinarith⟩, ⟨fun hlt => ?_, fun hb2 => ?_⟩,
      ⟨fun heq => ?_, fun hm2 => ?_⟩⟩
    · nlinarith
    · exact absurd hb2 (by decide)
    · nlinarith
    · exact absurd hm2 (by decide)
  · have hadj : get_calorie_adjustment "maintain" = 0.0 := by
      norm_num [get_calorie_adjustment, show pyLower "maintain" = "maintain" from by decide,
        show ("maintain" : String) ≠ "cut" from by decide]
    rw [hadj]
    refine ⟨⟨fun hlt => ?_, fun hc2 => ?_⟩, ⟨fun hlt => ?_, fun hb2 => ?_⟩,
      ⟨fun _ => rfl, fun _ => by norm_num⟩⟩
    · nlinarith
    · exact absurd hc2 (by decide)
    · nlinarith
    · exact absurd hb2 (by decide)
  · have hadj : get_calorie_adjustment "bulk" = 0.15 := by
      norm_num [get_calorie_adjustment, show pyLower "bulk" = "bulk" from by decide,
        show ("bulk" : String) ≠ "cut" from by decide,
        show ("bulk" : String) ≠ "maintain" from by decide]
    rw [hadj]
    refine ⟨⟨fun hlt => ?_, fun hc2 => ?_⟩, ⟨fun _ => rfl, fun _ => by nlinarith⟩,
      ⟨fun heq => ?_, fun hm2 => ?_⟩⟩
    · nlinarith
    · exact absurd hc2 (by decide)
    · nlinarith
    · exact absurd hm2 (by decide)

/-- C4 witness at scenario 1's profile (male, 30, 175, 70, moderate, cut). -/
theorem target_calories_vs_tdee_witness :
    ((calculate_bmr "male" 30 175 70 * get_activity_factor "moderate")
        * (1 + get_calorie_adjustment "cut") <
      calculate_bmr "male" 30 175 70 * get_activity_factor "moderate" ↔
        ("cut" : String) = "cut") ∧
    (calculate_bmr "male" 30 175 70 * get_activity_factor "moderate" <
      (calculate_bmr "male" 30 175 70 * get_activity_factor "moderate")
        * (1 + get_calorie_adjustment "cut") ↔
        ("cut" : String) = "bulk") ∧
    ((calculate_bmr "male" 30 175 70 * get_activity_factor "moderate")
        * (1 + get_calorie_adjustment "cut") =
      calculate_bmr "male" 30 175 70 * get_activity_factor "moderate" ↔
        ("cut" : String) = "maintain") :=
  target_calories_vs_tdee ⟨"male", 30, 175, 70, "moderate", "cut"⟩
    (Or.inl rfl) ⟨by norm_num, by norm_num⟩ ⟨by norm_num, by norm_num⟩
    ⟨by norm_num, by norm_num⟩ (Or.inl rfl)

/-- C5: for every goal string (the three known goals and any unknown goal,
which falls back to the maintain ratios) the three macro ratios sum to
exactly 1, the returned grams are `calories*ratio/4`, `calories*ratio/9`,
`calories*ratio/4`, and they are non-negative for non-negative calories. -/
theorem macro_ratios_sum_one (goal : String) (calories : ℚ) (hc : 0 ≤ calories) :
    protein_ratio goal + fat_ratio goal + carb_ratio goal = 1 ∧
    calculate_macro_targets calories goal =
      ⟨calories * protein_ratio goal / 4, calories * fat_ratio goal / 9,
       calories * carb_ratio goal / 4⟩ ∧
    0 ≤ (calculate_macro_targets calories goal).protein_g ∧
    0 ≤ (calculate_macro_targets calories goal).fat_g ∧
    0 ≤ (calculate_macro_targets calories goal).carbs_g := by
  have hp : 0 ≤ protein_ratio goal := by unfold protein_ratio; split_ifs <;> norm_num
  have hf : 0 ≤ fat_ratio goal := by norm_num [fat_ratio]
  have hcb : 0 ≤ carb_ratio goal := by
    unfold carb_ratio protein_ratio fat_ratio; split_ifs <;> norm_num
  refine ⟨by unfold carb_ratio; ring, rfl, ?_, ?_, ?_⟩
  · exact div_nonneg (mul_nonneg hc hp) (by norm_num)
  · exact div_nonneg (mul_nonneg hc hf) (by norm_num)
  · exact div_nonneg (mul_nonneg hc hcb) (by norm_num)

/-- C5 witness at goal "cut", 2000 kcal. -/
theorem macro_ratios_sum_one_witness :
    protein_ratio "cut" + fat_ratio "cut" + carb_ratio "cut" = 1 ∧
    calculate_macro_targets 2000 "cut" =
      ⟨2000 * protein_ratio "cut" / 4, 2000 * fat_ratio "cut" / 9,
       2000 * carb_ratio "cut" / 4⟩ ∧
    0 ≤ (calculate_macro_targets 2000 "cut").protein_g ∧
    0 ≤ (calculate_macro_targets 2000 "cut").fat_g ∧
    0 ≤ (calculate_macro_targets 2000 "cut").carbs_g :=
  macro_ratios_sum_one "cut" 2000 (by norm_num)

/-- The ambient `random` generator, modelled as a stream of naturals with a
position: every draw consumes one stream value. -/
structure Rng where
  stream : ℕ → ℕ
  pos : ℕ

/-- `random.choice` over a non-empty food list (the callers guard emptiness). -/
def Rng.choice (r : Rng) (l : List Food) : Food × Rng :=
  (l.getD (r.stream r.pos % l.length) default, ⟨r.stream, r.pos + 1⟩)

/-- `random.randint(a, b)` — uniform integer in `[a, b]`. -/
def Rng.randint (r : Rng) (a b : ℕ) : ℕ × Rng :=
  (a + r.stream r.pos % (b - a + 1), ⟨r.stream, r.pos + 1⟩)

/-- One selected food of a meal (`FoodItem` model), all values rounded to
one decimal. -/
structure FoodItem where
  name : String
  amount_g : ℚ
  calories : ℚ
  protein : ℚ
  fat : ℚ
  carbs : ℚ
deriving DecidableEq, Inhabited

/-- A calories/protein/fat/carbs quadruple. -/
structure Totals where
  calories : ℚ
  protein : ℚ
  fat : ℚ
  carbs : ℚ
deriving DecidableEq, Inhabited

/-- Pointwise sum of two nutrient quadruples. -/
def Totals.add (a b : Totals) : Totals :=
  ⟨a.calories + b.calories, a.protein + b.protein, a.fat + b.fat, a.carbs + b.carbs⟩

/-- The unrounded nutrient contribution of `amount` grams of a food:
`per_100g * (amount / 100)`. -/
def scaled (f : Food) (amount : ℚ) : Totals :=
  ⟨f.per_100g.calories * (amount / 100), f.per_100g.protein * (amount / 100),
   f.per_100g.fat * (amount / 100), f.per_100g.carbs * (amount / 100)⟩

/-- The `FoodItem` appended by `generate_meal`: every stored value is the
one-decimal rounding of the scaled contribution. -/
def mkFoodItem (f : Food) (amount : ℚ) : FoodItem :=
  ⟨f.name, round1 amount, round1 (scaled f amount).calories,
   round1 (scaled f amount).protein, round1 (scaled f amount).fat,
   round1 (scaled f amount).carbs⟩

/-- A `Meal`: name, selected foods, and the meal's `totals` dict. -/
structure Meal where
  name : String
  foods : List FoodItem
  totals : Totals
deriving DecidableEq, Inhabited

/-- The running state of `generate_meal`: the `selected_foods` list and the
unrounded running sums `current_calories/protein/fat/carbs`. -/
structure MealState where
  selected_foods : List FoodItem
  current : Totals
  rng : Rng

/-- The four selection phases of `generate_meal`, threading the running
state; `current` accumulates the *unrounded* contributions exactly as the
`current_* += food_*` lines do. -/
def meal_phases (target_protein target_fat target_carbs : ℚ)
    (available_foods : List Food) (rng : Rng) : MealState :=
  let protein_foods := available_foods.filter (fun f => decide (10 < f.per_100g.protein))
  let carb_foods := available_foods.filter (fun f => decide (15 < f.per_100g.carbs))
  let fat_foods := available_foods.filter (fun f => decide (8 < f.per_100g.fat))
  let veggie_foods := available_foods.filter
    (fun f => decide (f.per_100g.carbs < 10) && decide (f.per_100g.protein < 5))
  let st1 : MealState :=
    if protein_foods ≠ [] then
      let pick := rng.choice protein_foods
      let protein_amount :=
        min 150 (max 50 ((target_protein * 0.75 / pick.1.per_100g.protein) * 100))
      ⟨[mkFoodItem pick.1 protein_amount], scaled pick.1 protein_amount, pick.2⟩
    else ⟨[], ⟨0, 0, 0, 0⟩, rng⟩
  let remaining_carbs := target_carbs - st1.current.carbs
  let st2 : MealState :=
    if 10 < remaining_carbs ∧ carb_foods ≠ [] then
      let pick := st1.rng.choice carb_foods
      let carb_amount := min 200 (max 50 ((remaining_carbs / pick.1.per_100g.carbs) * 100))
      ⟨st1.selected_foods ++ [mkFoodItem pick.1 carb_amount],
       st1.current.add (scaled pick.1 carb_amount), pick.2⟩
    else st1
  let remaining_fat := target_fat - st2.current.fat
  let st3 : MealState :=
    if 5 < remaining_fat ∧ fat_foods ≠ [] then
      let pick := st2.rng.choice fat_foods
      let fat_amount := min 100 (max 20 ((remaining_fat / pick.1.per_100g.fat) * 100))
      ⟨st2.selected_foods ++ [mkFoodItem pick.1 fat_amount],
       st2.current.add (scaled pick.1 fat_amount), pick.2⟩
    else st2
  if veggie_foods ≠ [] ∧ st3.selected_foods.length < 4 then
    let pick := st3.rng.choice veggie_foods
    let draw := pick.2.randint 50 150
    let veggie_amount : ℚ := (draw.1 : ℚ)
    ⟨st3.selected_foods ++ [mkFoodItem pick.1 veggie_amount],
     st3.current.add (scaled pick.1 veggie_amount), draw.2⟩
  else st3

/-- `generate_meal`: runs the four phases, then builds the totals dict by
rounding the raw running sums (`round(current_*, 1)`). The first argument
(`target_calories`) is accepted and unused, as in the source. -/
def generate_meal (_target_calories target_protein target_fat target_carbs : ℚ)
    (available_foods : List Food) (meal_name : String) (rng : Rng) : Meal × Rng :=
  let st := meal_phases target_protein target_fat target_carbs available_foods rng
  (⟨meal_name, st.selected_foods,
    ⟨round1 st.current.calories, round1 st.current.protein,
     round1 st.current.fat, round1 st.current.carbs⟩⟩, st.rng)

/-- A day of the plan: 1-based index, three meals, `daily_totals` = sum of
the three meals' (already rounded) totals, not re-rounded. -/
structure DayPlan where
  day : ℕ
  meals : List Meal
  daily_totals : Totals
deriving DecidableEq, Inhabited

/-- `generate_day_plan`: 25 % / 35 % / 40 % splits for Breakfast / Lunch /
Dinner applied to all four targets, three `generate_meal` calls threading
the generator, daily totals summed from the meal totals. -/
def generate_day_plan (day_num : ℕ)
    (daily_calories daily_protein daily_fat daily_carbs : ℚ)
    (available_foods : List Food) (rng : Rng) : DayPlan × Rng :=
  let b := generate_meal (daily_calories * 0.25) (daily_protein * 0.25)
    (daily_fat * 0.25) (daily_carbs * 0.25) available_foods "Breakfast" rng
  let l := generate_meal (daily_calories * 0.35) (daily_protein * 0.35)
    (daily_fat * 0.35) (daily_carbs * 0.35) available_foods "Lunch" b.2
  let d := generate_meal (daily_calories * 0.40) (daily_protein * 0.40)
    (daily_fat * 0.40) (daily_carbs * 0.40) available_foods "Dinner" l.2
  (⟨day_num, [b.1, l.1, d.1],
    ((b.1.totals.add l.1.totals).add d.1.totals)⟩, d.2)

/-- The `/mealplan` request after pydantic validation (`MealPlanRequest`). -/
structure MealPlanRequest where
  calories : ℚ
  protein_g : ℚ
  fat_g : ℚ
  carbs_g : ℚ
  diet_tags : List String
  days : ℕ
deriving DecidableEq

/-- The `/mealplan` response: day plans, plan totals (with the separate
`avg_daily_calories` entry of the totals dict), adherence score. -/
structure MealPlanResponse where
  days : List DayPlan
  plan_totals : Totals
  avg_daily_calories : ℚ
  adherence_score : ℚ
deriving DecidableEq

/-- Python division, which raises `ZeroDivisionError` on a zero divisor. -/
def pydiv (a b : ℚ) : Except String ℚ :=
  if b = 0 then .error "ZeroDivisionError" else .ok (a / b)

/-- The day loop of `generate_meal_plan`: builds `days` day plans starting
at `day_num`, accumulating the (unrounded) sums of the daily totals. -/
def generate_days (calories protein_g fat_g carbs_g : ℚ)
    (available_foods : List Food) :
    ℕ → ℕ → Rng → List DayPlan × Totals × Rng
  | 0, _, rng => ([], ⟨0, 0, 0, 0⟩, rng)
  | n + 1, day_num, rng =>
    let d := generate_day_plan day_num calories protein_g fat_g carbs_g
      available_foods rng
    let rest := generate_days calories protein_g fat_g carbs_g available_foods
      n (day_num + 1) d.2
    (d.1 :: rest.1, d.1.daily_totals.add rest.2.1, rest.2.2)

/-- The adherence-score block of `generate_meal_plan` (lines computing
`*_adherence`, the average, the clamp and the 3-decimal rounding).  Each
`1 - abs(actual - target_total)/target_total` divides by `target_total`
with no zero guard, so a zero target total raises `ZeroDivisionError`. -/
def compute_adherence (calories protein_g fat_g carbs_g : ℚ) (days : ℕ)
    (total : Totals) : Except String ℚ :=
  (pydiv |total.calories - calories * days| (calories * days)).bind fun ca =>
  (pydiv |total.protein - protein_g * days| (protein_g * days)).bind fun pa =>
  (pydiv |total.fat - fat_g * days| (fat_g * days)).bind fun fa =>
  (pydiv |total.carbs - carbs_g * days| (carbs_g * days)).bind fun cba =>
  .ok (round3 (max 0 (min 1 (((1 - ca) + (1 - pa) + (1 - fa) + (1 - cba)) / 4))))

/-- `generate_meal_plan` (`POST /mealplan`): filter the catalog, raise the
empty-catalog error before any day is generated, otherwise build the day
plans, the rounded plan totals with average daily calories, and the
adherence score. -/
def generate_meal_plan (request : MealPlanRequest) (catalog : List Food)
    (rng : Rng) : Except String MealPlanResponse :=
  let available_foods := filter_foods request.diet_tags catalog
  if available_foods = [] then
    .error "No foods available for the specified dietary restrictions"
  else
    let gen := generate_days request.calories request.protein_g request.fat_g
      request.carbs_g available_foods request.days 1 rng
    (pydiv gen.2.1.calories (request.days : ℚ)).bind fun avg =>
    (compute_adherence request.calories request.protein_g
      request.fat_g request.carbs_g request.days gen.2.1).bind fun score =>
    .ok ⟨gen.1,
      ⟨round1 gen.2.1.calories, round1 gen.2.1.protein,
       round1 gen.2.1.fat, round1 gen.2.1.carbs⟩,
      round1 avg, score⟩

/-- C1 counterexample: a two-item catalog where the meal's calories total
(2.5, the rounding of the raw sum 1.24 + 1.24 = 2.48) differs from the sum
of the entries' individually-rounded calories (1.2 + 1.2 = 2.4). -/
theorem meal_totals_counterexample :
    (generate_meal 0 10 0 12
        [⟨"ProteinFood", ⟨2.48, 22, 0, 0⟩, [], none⟩,
         ⟨"CarbFood", ⟨2.48, 0, 0, 24⟩, [], none⟩]
        "Breakfast" ⟨fun _ => 0, 0⟩).1.totals.calories ≠
      ((generate_meal 0 10 0 12
        [⟨"ProteinFood", ⟨2.48, 22, 0, 0⟩, [], none⟩,
         ⟨"CarbFood", ⟨2.48, 0, 0, 24⟩, [], none⟩]
        "Breakfast" ⟨fun _ => 0, 0⟩).1.foods.map FoodItem.calories).sum := by
  norm_num [generate_meal, meal_phases, Rng.choice, mkFoodItem, scaled, Totals.add,
    round1, pyRound, pyRoundInt, min_def, max_def, List.getD]

/-- C1 amended: the meal totals are derived by rounding the raw
floating-point running sums once at the end (sum-then-round): each
component of `totals` is the one-decimal rounding of the corresponding
unrounded running sum accumulated by the selection phases, while the
entries themselves carry individually-rounded values. -/
theorem meal_totals_sum_then_round (tc tp tf tcb : ℚ) (foods : List Food)
    (name : String) (rng : Rng) :
    (generate_meal tc tp tf tcb foods name rng).1.totals =
      ⟨round1 (meal_phases tp tf tcb foods rng).current.calories,
       round1 (meal_phases tp tf tcb foods rng).current.protein,
       round1 (meal_phases tp tf tcb foods rng).current.fat,
       round1 (meal_phases tp tf tcb foods rng).current.carbs⟩ := rfl

/-- C2 counterexample: with a zero calorie target (target total 0), the
adherence computation reaches an unguarded division by zero and raises
`ZeroDivisionError` — there is no explicit zero guard in the code. -/
theorem adherence_division_unguarded :
    compute_adherence 0 50 20 50 1 ⟨0, 0, 0, 0⟩ = .error "ZeroDivisionError" := by
  simp [compute_adherence, pydiv, Except.bind]

/-- C2 amended: the division by each target total is not explicitly
guarded; the code relies on the `MealPlanRequest` range validation
(calories ≥ 800, protein ≥ 50, fat ≥ 20, carbs ≥ 50, days ≥ 1), under
which every target total is nonzero and the adherence computation
succeeds without a division by zero. -/
theorem adherence_defined_for_validated (calories protein_g fat_g carbs_g : ℚ)
    (days : ℕ) (total : Totals)
    (hc : 800 ≤ calories) (hp : 50 ≤ protein_g) (hf : 20 ≤ fat_g)
    (hcb : 50 ≤ carbs_g) (hd : 1 ≤ days) :
    ∃ s, compute_adherence calories protein_g fat_g carbs_g days total = .ok s := by
  have hdq : (1 : ℚ) ≤ (days : ℚ) := by exact_mod_cast hd
  have h1 : calories * (days : ℚ) ≠ 0 := ne_of_gt (mul_pos (by linarith) (by linarith))
  have h2 : protein_g * (days : ℚ) ≠ 0 := ne_of_gt (mul_pos (by linarith) (by linarith))
  have h3 : fat_g * (days : ℚ) ≠ 0 := ne_of_gt (mul_pos (by linarith) (by linarith))
  have h4 : carbs_g * (days : ℚ) ≠ 0 := ne_of_gt (mul_pos (by linarith) (by linarith))
  refine ⟨round3 (max 0 (min 1
    (((1 - |total.calories - calories * days| / (calories * days)) +
      (1 - |total.protein - protein_g * days| / (protein_g * days)) +
      (1 - |total.fat - fat_g * days| / (fat_g * days)) +
      (1 - |total.carbs - carbs_g * days| / (carbs_g * days))) / 4))), ?_⟩
  simp [compute_adherence, pydiv, Except.bind, h1, h2, h3, h4]

/-- C2 witness at the minimal validated request. -/
theorem adherence_defined_for_validated_witness :
    ∃ s, compute_adherence 800 50 20 50 1 ⟨0, 0, 0, 0⟩ = .ok s :=
  adherence_defined_for_validated 800 50 20 50 1 ⟨0, 0, 0, 0⟩
    (by norm_num) (by norm_num) (by norm_num) (by norm_num) (by norm_num)

/-- C8: whenever filtering reduces the catalog to zero items,
`generate_meal_plan` fails with the empty-catalog error message before
generating any day, and in particular never returns a plan. -/
theorem empty_catalog_error (request : MealPlanRequest) (catalog : List Food)
    (rng : Rng) (h : filter_foods request.diet_tags catalog = []) :
    generate_meal_plan request catalog rng =
      .error "No foods available for the specified dietary restrictions" := by
  simp [generate_meal_plan, h]

/-- C8 witness: a vegan request against a catalog holding only a chicken
item tagged halal. -/
theorem empty_catalog_error_witness :
    generate_meal_plan ⟨2000, 150, 67, 200, ["vegan"], 3⟩
      [⟨"Chicken Breast", ⟨165, 31, 3.6, 0⟩, ["non_veg", "halal"], some "medium"⟩]
      ⟨fun _ => 0, 0⟩ =
      .error "No foods available for the specified dietary restrictions" :=
  empty_catalog_error _ _ _ (by decide)

/-- C9: `generate_meal_plan` is deterministic given the random source —
runs with identical inputs and identical initial generator state produce
identical responses. -/
theorem generate_meal_plan_deterministic (request : MealPlanRequest)
    (catalog : List Food) (r1 r2 : Rng) (h : r1 = r2) :
    generate_meal_plan request catalog r1 = generate_meal_plan request catalog r2 := by
  rw [h]

/-- C9 witness at a concrete request, catalog and seed. -/
theorem generate_meal_plan_deterministic_witness :
    generate_meal_plan ⟨2000, 150, 67, 200, [], 1⟩
      [⟨"Oats", ⟨389, 16.9, 6.9, 66.3⟩, ["veg"], some "low"⟩] ⟨fun _ => 0, 0⟩ =
    generate_meal_plan ⟨2000, 150, 67, 200, [], 1⟩
      [⟨"Oats", ⟨389, 16.9, 6.9, 66.3⟩, ["veg"], some "low"⟩] ⟨fun _ => 0, 0⟩ :=
  generate_meal_plan_deterministic _ _ _ _ rfl

end DietApp
